import Mathlib

/-!
# issues-sync-middleware: the consume / update / acknowledge loop

A shallow embedding of `src/sync.go` (package `middleware`).

* The Go structs `Issue`, `IssueUpdate` and `Config` are Lean structures with
  the same field names.
* The two collaborators of the program, the AMQP channel and the gorm
  database handle, are not part of the repository.  Their calls are recorded
  as `Event`s in a trace, in program order, and the answers they give are
  inputs of the model: the error (or none) returned by `Qos`, `Consume`,
  `Ack`, `Nack`, `Close`, and by the database for the `UPDATE` statement.
* `json.Unmarshal` is an argument `unmarshal : String → Except Err IssueUpdate`
  of the loop; `decodeEnvelope` describes its result on a well-formed body.
* The table behind `m.db` is a list of rows of type `Issue`.  The one database
  call of the program, `Model(&Issue{}).Where("id = ?", id).Updates(vals)`, is
  given the meaning the gorm library gives it for a struct argument: an
  `UPDATE` of the rows whose `id` equals the key, assigning the non-zero
  fields of `vals` and the current time to `updated_at`.
-/

namespace Middleware

/-- Go `error` values, identified by their message. -/
abbrev Err := String

/-- Go `time.Time`; the value `0` stands for the zero value `time.Time{}`. -/
abbrev Time := Nat

/-- The struct `Issue` (sync.go lines 14-21). -/
structure Issue where
  Id : Int
  Summary : String
  Status : String
  Di : Int
  CreatedAt : Time
  UpdatedAt : Time
deriving DecidableEq, Repr

/-- The struct `IssueUpdate` (sync.go lines 24-27): the top-level `ID` and the
embedded `Issue`, which carries an `Id` of its own. -/
structure IssueUpdate where
  ID : Int
  Issue : Issue
deriving DecidableEq, Repr

/-- The struct `Config` (sync.go lines 30-39). -/
structure Config where
  DBHost : String
  DBPort : String
  DBUser : String
  DBPass : String
  DBName : String
  MQURL : String
  QueueName : String
  PrefetchCount : Int
deriving DecidableEq, Repr

/-- The four `log.Printf` formats of the loop and the `log.Println` of `Start`,
each with the argument it is given. -/
inductive LogMsg where
  /-- Line 106, "JSON解析失败: %v". -/
  | jsonFailed (err : Err)
  /-- Line 112, "数据更新失败: %v". -/
  | updateFailed (err : Err)
  /-- Line 117, "Issue id：%v 数据更新成功". -/
  | updateDone (id : Int)
  /-- Line 119, "消息确认失败: %v". -/
  | ackFailed (err : Err)
  /-- Line 124, "等待消息中...". -/
  | waiting
deriving DecidableEq, Repr

/-- One call made by the program on a collaborator, with its arguments. -/
inductive Event where
  /-- The call `m.ch.Qos(prefetchCount, prefetchSize, global)`. -/
  | qos (prefetchCount prefetchSize : Int) (global : Bool)
  /-- The call `m.ch.Consume(queue, consumer, autoAck, exclusive, noLocal, noWait, nil)`. -/
  | consume (queue consumer : String) (autoAck exclusive noLocal noWait : Bool)
  /-- A call of `log.Printf` or `log.Println`. -/
  | log (msg : LogMsg)
  /-- The call `msg.Nack(multiple, requeue)` on the delivery with this tag. -/
  | nack (tag : Nat) (multiple requeue : Bool)
  /-- The call `msg.Ack(multiple)` on the delivery with this tag. -/
  | ack (tag : Nat) (multiple : Bool)
  /-- The call `m.db.Model(&Issue{}).Where("id = ?", id).Updates(vals)`. -/
  | updates (id : Int) (vals : Issue)
  /-- The call `m.ch.Close()`. -/
  | chClose
  /-- The call `m.conn.Close()`. -/
  | connClose
deriving DecidableEq, Repr

/-- An `amqp.Delivery` as the loop uses it: the tag that `Ack` and `Nack`
send back to the broker, the body, and the error (or none) that the
delivery's acknowledger returns when `Ack` or `Nack` is called on it. -/
structure Delivery where
  DeliveryTag : Nat
  Body : String
  ackErr : Option Err
deriving DecidableEq, Repr

/-- What the database answers to the one statement issued for a delivery:
the error it reports (connection lost, constraint violated, ...) or none, and
the value of `db.NowFunc()` at that moment. -/
structure DbReply where
  dbErr : Option Err
  now : Time
deriving DecidableEq, Repr

/-- A delivered message together with the database's answer while it is
being processed. -/
structure Inbound where
  msg : Delivery
  reply : DbReply
deriving DecidableEq, Repr

/-! ## The database call of line 111 -/

/-- The `SET` clause that gorm builds for `Updates(vals)` with a struct
argument that is not the model itself, applied to one row: every column whose
field in `vals` is not the Go zero value is overwritten, the primary key
included; a zero field leaves the column as it is; `UpdatedAt` is an
auto-update-time column and always receives `now`. -/
def setColumns (now : Time) (vals row : Issue) : Issue :=
  { Id := if vals.Id = 0 then row.Id else vals.Id
    Summary := if vals.Summary = "" then row.Summary else vals.Summary
    Status := if vals.Status = "" then row.Status else vals.Status
    Di := if vals.Di = 0 then row.Di else vals.Di
    CreatedAt := if vals.CreatedAt = 0 then row.CreatedAt else vals.CreatedAt
    UpdatedAt := now }

/-- The statement `m.db.Model(&Issue{}).Where("id = ?", id).Updates(vals)`
(line 111) run against a table: `UPDATE issues SET ... WHERE id = ?`.  The
result is the table afterwards and the `.Error` of the call.  When the
database reports an error the statement has no effect.  A statement that
matches no row is not an error. -/
def dbUpdates (reply : DbReply) (table : List Issue) (id : Int) (vals : Issue) :
    List Issue × Option Err :=
  match reply.dbErr with
  | some e => (table, some e)
  | none => (table.map (fun row => if row.Id = id then setColumns reply.now vals row else row), none)

/-! ## The loop of `Start` (lines 102-122) -/

/-- The table and the calls made so far. -/
structure State where
  db : List Issue
  trace : List Event
deriving DecidableEq, Repr

/-- The body of `for msg := range msgs` (lines 104-120) for one delivery. -/
def handle (unmarshal : String → Except Err IssueUpdate) (m : Inbound) (s : State) : State :=
  match unmarshal m.msg.Body with
  | .error err =>
    { db := s.db
      trace := s.trace ++ [Event.log (LogMsg.jsonFailed err),
                           Event.nack m.msg.DeliveryTag false false] }
  | .ok update =>
    match dbUpdates m.reply s.db update.ID update.Issue with
    | (db, some err) =>
      { db := db
        trace := s.trace ++ [Event.updates update.ID update.Issue,
                             Event.log (LogMsg.updateFailed err),
                             Event.nack m.msg.DeliveryTag false false] }
    | (db, none) =>
      { db := db
        trace := s.trace ++ [Event.updates update.ID update.Issue,
                             Event.log (LogMsg.updateDone update.ID),
                             Event.ack m.msg.DeliveryTag false] ++
                 (match m.msg.ackErr with
                  | some err => [Event.log (LogMsg.ackFailed err)]
                  | none => []) }

/-- The loop `for msg := range msgs` over the deliveries that arrive before
the stream is closed. -/
def consumeLoop (unmarshal : String → Except Err IssueUpdate) : List Inbound → State → State
  | [], s => s
  | m :: rest, s => consumeLoop unmarshal rest (handle unmarshal m s)

/-- What the channel answers to `Start`: the error of `Qos` (or none) and the
result of `Consume`, either an error or the stream of deliveries. -/
structure Broker where
  qosErr : Option Err
  consumeRes : Except Err (List Inbound)

/-- How a call of `Start` ends. -/
inductive StartOutcome where
  /-- The method returned this error after these calls. -/
  | returned (err : Err) (calls : List Event)
  /-- The method made these calls, started the worker and blocks on `<-forever`;
  `worker` is the state the worker goroutine reaches on the stream. -/
  | blocked (calls : List Event) (worker : State)
deriving DecidableEq, Repr

/-- The method `Start` (lines 77-127). -/
def Start (config : Config) (unmarshal : String → Except Err IssueUpdate)
    (broker : Broker) (db : List Issue) : StartOutcome :=
  match broker.qosErr with
  | some err => StartOutcome.returned err [Event.qos config.PrefetchCount 0 false]
  | none =>
    match broker.consumeRes with
    | .error err =>
      StartOutcome.returned err
        [Event.qos config.PrefetchCount 0 false,
         Event.consume config.QueueName "" false false false false]
    | .ok msgs =>
      StartOutcome.blocked
        [Event.qos config.PrefetchCount 0 false,
         Event.consume config.QueueName "" false false false false,
         Event.log LogMsg.waiting]
        (consumeLoop unmarshal msgs { db := db, trace := [] })

/-- The method `Close` (lines 130-138): the calls it makes and the error it
returns, given the answers of `m.ch.Close()` and `m.conn.Close()`. -/
def Close (chCloseErr connCloseErr : Option Err) : List Event × Option Err :=
  match chCloseErr with
  | some err => ([Event.chClose], some err)
  | none =>
    match connCloseErr with
    | some err => ([Event.chClose, Event.connClose], some err)
    | none => ([Event.chClose, Event.connClose], none)

/-! ## Observations on a trace -/

/-- The tag of an acknowledgment call, positive or negative. -/
def Event.ackTag : Event → Option Nat
  | Event.nack tag _ _ => some tag
  | Event.ack tag _ => some tag
  | _ => none

/-- The tags of the acknowledgment calls of a trace, in order. -/
def ackTags (trace : List Event) : List Nat :=
  trace.filterMap Event.ackTag

/-- The positive acknowledgments of a trace. -/
def Event.isAck : Event → Bool
  | Event.ack _ _ => true
  | _ => false

/-- The negative acknowledgments of a trace. -/
def Event.isNack : Event → Bool
  | Event.nack _ _ _ => true
  | _ => false

/-- The database calls of a trace. -/
def Event.isUpdates : Event → Bool
  | Event.updates _ _ => true
  | _ => false

/-- The log lines that report a failed acknowledgment. -/
def Event.isAckFailedLog : Event → Bool
  | Event.log (LogMsg.ackFailed _) => true
  | _ => false

/-- The log line of lines 118-120 after `msg.Ack(false)`: one line when the
call returned an error, none otherwise. -/
def ackFailureLog (ackErr : Option Err) : List Event :=
  match ackErr with
  | some err => [Event.log (LogMsg.ackFailed err)]
  | none => []

/-- The calls that one delivery adds to the trace. -/
def handleCalls (unmarshal : String → Except Err IssueUpdate) (m : Inbound) (db : List Issue) :
    List Event :=
  (handle unmarshal m { db := db, trace := [] }).trace

/-! ## The JSON body of a well-formed message -/

/-- The object under the key "issue" of a body, by the `json` tags of `Issue`
(lines 15-20): each key is present with a value or absent. -/
structure IssueJson where
  id : Option Int
  Summary : Option String
  status : Option String
  di : Option Int
  created_at : Option Time
  updated_at : Option Time
deriving DecidableEq, Repr

/-- A body of the shape of section 6 of the specification, by the `json` tags
of `IssueUpdate` (lines 25-26). -/
structure EnvelopeJson where
  id : Option Int
  issue : Option IssueJson
deriving DecidableEq, Repr

/-- What `json.Unmarshal` stores in an `Issue` that starts as the zero value
(`var update IssueUpdate`, line 104): the value of every key that is present;
a field whose key is absent keeps the zero value. -/
def decodeIssue (j : IssueJson) : Issue :=
  { Id := j.id.getD 0
    Summary := j.Summary.getD ""
    Status := j.status.getD ""
    Di := j.di.getD 0
    CreatedAt := j.created_at.getD 0
    UpdatedAt := j.updated_at.getD 0 }

/-- What `json.Unmarshal(msg.Body, &update)` stores in `update` for a
well-formed body. -/
def decodeEnvelope (e : EnvelopeJson) : IssueUpdate :=
  { ID := e.id.getD 0
    Issue := match e.issue with
      | some j => decodeIssue j
      | none => decodeIssue
          { id := none, Summary := none, status := none, di := none,
            created_at := none, updated_at := none } }

/-! ## Sample inputs -/

/-- A decoder that rejects every body. -/
def unmarshalNothing : String → Except Err IssueUpdate :=
  fun _ => .error "unexpected end of JSON input"

/-- A decoder that accepts every body as the given envelope. -/
def unmarshalAs (e : EnvelopeJson) : String → Except Err IssueUpdate :=
  fun _ => .ok (decodeEnvelope e)

/-- A delivery with a truncated body. -/
def sampleTruncated : Inbound :=
  { msg := { DeliveryTag := 1, Body := "truncated", ackErr := none }
    reply := { dbErr := none, now := 9 } }

/-- A delivery whose acknowledgment succeeds, on a database that executes the
statement at time 9. -/
def sampleDelivery : Inbound :=
  { msg := { DeliveryTag := 2, Body := "envelope", ackErr := none }
    reply := { dbErr := none, now := 9 } }

/-- A delivery on a database that fails the statement. -/
def sampleDbDown : Inbound :=
  { msg := { DeliveryTag := 3, Body := "envelope", ackErr := none }
    reply := { dbErr := some "connection refused", now := 9 } }

/-- A delivery whose acknowledger fails. -/
def sampleAckBroken : Inbound :=
  { msg := { DeliveryTag := 4, Body := "envelope", ackErr := some "channel closed" }
    reply := { dbErr := none, now := 9 } }

/-- The row of scenario A: record 5 with status "open". -/
def row5 : Issue :=
  { Id := 5, Summary := "login fails", Status := "open", Di := 3, CreatedAt := 1, UpdatedAt := 2 }

/-- Another row, record 6. -/
def row6 : Issue :=
  { Id := 6, Summary := "typo", Status := "open", Di := 1, CreatedAt := 1, UpdatedAt := 2 }

/-- An "issue" object with no key. -/
def noFields : IssueJson :=
  { id := none, Summary := none, status := none, di := none, created_at := none,
    updated_at := none }

/-- The envelope of scenario A: id 5, status "closed". -/
def envelopeA : EnvelopeJson :=
  { id := some 5, issue := some { noFields with status := some "closed" } }

/-- The envelope of scenario C: id 999, which names no record. -/
def envelopeC : EnvelopeJson :=
  { id := some 999, issue := some { noFields with status := some "closed" } }

/-- An envelope with top-level id 6 whose nested id is 5. -/
def envelopeMixed : EnvelopeJson :=
  { id := some 6, issue := some { noFields with id := some 5, status := some "closed" } }

/-- An envelope for record 5 whose status is present and empty. -/
def envelopeEmptyStatus : EnvelopeJson :=
  { id := some 5, issue := some { noFields with status := some "" } }

/-- An envelope for record 5 that carries an `updated_at` of its own. -/
def envelopeStamped : EnvelopeJson :=
  { id := some 5, issue := some { noFields with updated_at := some 7 } }

/-- An envelope for record 5 whose nested id is 7. -/
def envelopeRenumber : EnvelopeJson :=
  { id := some 5, issue := some { noFields with id := some 7 } }

/-- A delivery with a truncated body whose acknowledger fails. -/
def sampleNackBroken : Inbound :=
  { msg := { DeliveryTag := 5, Body := "truncated", ackErr := some "channel closed" }
    reply := { dbErr := none, now := 9 } }

/-! ## Structure of a run -/

/-- Processing a delivery appends its calls to the trace. -/
theorem handle_trace (unmarshal : String → Except Err IssueUpdate) (m : Inbound) (s : State) :
    (handle unmarshal m s).trace = s.trace ++ handleCalls unmarshal m s.db := by
  unfold handleCalls handle
  cases unmarshal m.msg.Body with
  | error err => simp
  | ok update =>
    simp only [dbUpdates]
    cases m.reply.dbErr with
    | some e => simp
    | none => simp

/-- The loop over a concatenation is the loop over the second part started
where the first part ends. -/
theorem consumeLoop_append (unmarshal : String → Except Err IssueUpdate)
    (xs ys : List Inbound) (s : State) :
    consumeLoop unmarshal (xs ++ ys) s = consumeLoop unmarshal ys (consumeLoop unmarshal xs s) := by
  induction xs generalizing s with
  | nil => rfl
  | cons x xs ih => simp [consumeLoop, ih]

/-- A statement whose key matches no row leaves the table as it is. -/
theorem map_update_absent (f : Issue → Issue) (id : Int) (table : List Issue)
    (h : ∀ row ∈ table, row.Id ≠ id) :
    table.map (fun row => if row.Id = id then f row else row) = table := by
  induction table with
  | nil => rfl
  | cons a t ih =>
    have ha : a.Id ≠ id := h a (List.mem_cons_self a t)
    have ht : ∀ row ∈ t, row.Id ≠ id := fun row hr => h row (List.mem_cons_of_mem a hr)
    simp [ha, ih ht]

/-- Every delivery contributes exactly one acknowledgment call, with its tag. -/
theorem ackTags_handleCalls (unmarshal : String → Except Err IssueUpdate) (m : Inbound)
    (db : List Issue) :
    ackTags (handleCalls unmarshal m db) = [m.msg.DeliveryTag] := by
  unfold handleCalls handle
  cases unmarshal m.msg.Body with
  | error err => simp [ackTags, Event.ackTag]
  | ok update =>
    simp only [dbUpdates]
    cases m.reply.dbErr with
    | some e => simp [ackTags, Event.ackTag]
    | none => cases m.msg.ackErr <;> simp [ackTags, Event.ackTag]

/-- The acknowledgment tags of a run are those of the start state followed by
the tags of the deliveries. -/
theorem ackTags_consumeLoop (unmarshal : String → Except Err IssueUpdate)
    (msgs : List Inbound) (s : State) :
    ackTags (consumeLoop unmarshal msgs s).trace
      = ackTags s.trace ++ msgs.map (fun m => m.msg.DeliveryTag) := by
  induction msgs generalizing s with
  | nil => simp [consumeLoop]
  | cons m rest ih =>
    have h1 : ackTags (handle unmarshal m s).trace
        = ackTags s.trace ++ [m.msg.DeliveryTag] := by
      rw [handle_trace]
      unfold ackTags
      rw [List.filterMap_append]
      exact congrArg (fun l => List.filterMap Event.ackTag s.trace ++ l)
        (ackTags_handleCalls unmarshal m s.db)
    simp [consumeLoop, ih, h1]

/-- The table after one delivery whose body decodes. -/
theorem handle_db_ok (unmarshal : String → Except Err IssueUpdate) (m : Inbound) (s : State)
    (update : IssueUpdate) (hdec : unmarshal m.msg.Body = .ok update) :
    (handle unmarshal m s).db = (dbUpdates m.reply s.db update.ID update.Issue).1 := by
  unfold handle
  rw [hdec]
  simp only [dbUpdates]
  cases m.reply.dbErr <;> rfl

/-- The table after one delivery whose body does not decode. -/
theorem handle_db_error (unmarshal : String → Except Err IssueUpdate) (m : Inbound) (s : State)
    (err : Err) (hdec : unmarshal m.msg.Body = .error err) :
    (handle unmarshal m s).db = s.db := by
  unfold handle
  rw [hdec]

/-- Processing a delivery from a state is processing it from the same table
with an empty trace, the calls being appended to the trace of the state. -/
theorem handle_frame (unmarshal : String → Except Err IssueUpdate) (m : Inbound) (s : State) :
    handle unmarshal m s
      = { db := (handle unmarshal m { db := s.db, trace := [] }).db
          trace := s.trace ++ (handle unmarshal m { db := s.db, trace := [] }).trace } := by
  unfold handle
  cases unmarshal m.msg.Body with
  | error err => simp
  | ok update =>
    simp only [dbUpdates]
    cases m.reply.dbErr with
    | some e => simp
    | none => simp

/-- A run of the loop from a state is the run from the same table with an
empty trace, its calls being appended to the trace of the state. -/
theorem consumeLoop_frame (unmarshal : String → Except Err IssueUpdate)
    (msgs : List Inbound) (s : State) :
    consumeLoop unmarshal msgs s
      = { db := (consumeLoop unmarshal msgs { db := s.db, trace := [] }).db
          trace := s.trace ++ (consumeLoop unmarshal msgs { db := s.db, trace := [] }).trace } := by
  induction msgs generalizing s with
  | nil => simp [consumeLoop]
  | cons m rest ih =>
    simp only [consumeLoop]
    rw [ih (handle unmarshal m s), ih (handle unmarshal m { db := s.db, trace := [] })]
    rw [handle_frame unmarshal m s]
    simp

/-- A run over a stream, cut at one delivery: the run up to the delivery, the
delivery itself, and the run over the rest from the table the delivery leaves. -/
theorem consumeLoop_split (unmarshal : String → Except Err IssueUpdate)
    (before : List Inbound) (m : Inbound) (after : List Inbound) (s : State) :
    consumeLoop unmarshal (before ++ m :: after) s
      = { db := (consumeLoop unmarshal after
                  { db := (handle unmarshal m (consumeLoop unmarshal before s)).db,
                    trace := [] }).db
          trace := (handle unmarshal m (consumeLoop unmarshal before s)).trace
            ++ (consumeLoop unmarshal after
                  { db := (handle unmarshal m (consumeLoop unmarshal before s)).db,
                    trace := [] }).trace } := by
  rw [consumeLoop_append]
  simp only [consumeLoop]
  exact consumeLoop_frame unmarshal after (handle unmarshal m (consumeLoop unmarshal before s))

/-- The identifiers of the rows after the statement, row by row. -/
theorem ids_after_update (now : Time) (vals : Issue) (id : Int) (table : List Issue) :
    (table.map (fun row => if row.Id = id then setColumns now vals row else row)).map
        (fun row => row.Id)
      = table.map (fun row => if row.Id = id then (if vals.Id = 0 then row.Id else vals.Id)
          else row.Id) := by
  simp only [List.map_map]
  apply List.map_congr_left
  intro row _
  simp only [Function.comp]
  by_cases hrow : row.Id = id
  · simp [hrow, setColumns]
  · simp [hrow]

/-! ## The claims -/

/-- C1: when the body of a delivered message fails to decode, the run of the
loop over the stream contains, for that message, the log line of the decode
error followed by `Nack(false, false)` on its tag, and nothing else: the trace
of the run is the trace up to the message, these two calls, and the trace of
the rest of the stream.  The two calls hold no `Ack` and no database call, the
parts before and after hold exactly the acknowledgments of the other
deliveries, and the rest of the stream runs on the table as it was before the
message.  This holds for the message at any position of the stream. -/
theorem decode_failure_is_rejected (unmarshal : String → Except Err IssueUpdate)
    (before : List Inbound) (m : Inbound) (after : List Inbound) (s : State) (err : Err)
    (hdec : unmarshal m.msg.Body = .error err) :
    (consumeLoop unmarshal (before ++ m :: after) s).trace
        = (consumeLoop unmarshal before s).trace
          ++ [Event.log (LogMsg.jsonFailed err), Event.nack m.msg.DeliveryTag false false]
          ++ (consumeLoop unmarshal after
                { db := (consumeLoop unmarshal before s).db, trace := [] }).trace
      ∧ (consumeLoop unmarshal (before ++ m :: after) s).db
        = (consumeLoop unmarshal after
                { db := (consumeLoop unmarshal before s).db, trace := [] }).db
      ∧ ackTags (consumeLoop unmarshal before s).trace
        = ackTags s.trace ++ before.map (fun d => d.msg.DeliveryTag)
      ∧ ackTags (consumeLoop unmarshal after
                { db := (consumeLoop unmarshal before s).db, trace := [] }).trace
        = after.map (fun d => d.msg.DeliveryTag)
      ∧ (∀ e ∈ [Event.log (LogMsg.jsonFailed err), Event.nack m.msg.DeliveryTag false false],
          e.isAck = false ∧ e.isUpdates = false) := by
  have hm : handle unmarshal m (consumeLoop unmarshal before s)
      = { db := (consumeLoop unmarshal before s).db
          trace := (consumeLoop unmarshal before s).trace
            ++ [Event.log (LogMsg.jsonFailed err), Event.nack m.msg.DeliveryTag false false] } := by
    simp [handle, hdec]
  have hsplit := consumeLoop_split unmarshal before m after s
  rw [hm] at hsplit
  refine ⟨?_, ?_, ackTags_consumeLoop unmarshal before s, ?_, ?_⟩
  · rw [hsplit]
  · rw [hsplit]
  · rw [ackTags_consumeLoop]
    simp [ackTags]
  · intro e he
    simp at he
    rcases he with rfl | rfl <;> simp [Event.isAck, Event.isUpdates]

/-- Witness for C1: a stream of one message with a truncated body, run by
`Start` on a table that holds record 5. -/
theorem decode_failure_is_rejected_witness :
    unmarshalNothing sampleTruncated.msg.Body = .error "unexpected end of JSON input"
      ∧ (consumeLoop unmarshalNothing ([] ++ sampleTruncated :: []) { db := [row5], trace := [] }).trace
          = [Event.log (LogMsg.jsonFailed "unexpected end of JSON input"), Event.nack 1 false false]
      ∧ (consumeLoop unmarshalNothing ([] ++ sampleTruncated :: []) { db := [row5], trace := [] }).db
          = [row5] :=
  have h := decode_failure_is_rejected unmarshalNothing [] sampleTruncated []
    { db := [row5], trace := [] } "unexpected end of JSON input" rfl
  ⟨rfl, h.1, h.2.1⟩

/-- C2: when the body of a delivered message decodes and the database call
returns an error, the run of the loop over the stream contains, for that
message, the database call, the log line of the error and `Nack(false, false)`
on its tag, and nothing else: the trace of the run is the trace up to the
message, these three calls, and the trace of the rest of the stream.  The three
calls hold no `Ack`, and the parts before and after hold exactly the
acknowledgments of the other deliveries.  This holds for the message at any
position of the stream. -/
theorem store_failure_is_rejected (unmarshal : String → Except Err IssueUpdate)
    (before : List Inbound) (m : Inbound) (after : List Inbound) (s : State)
    (update : IssueUpdate) (err : Err)
    (hdec : unmarshal m.msg.Body = .ok update)
    (hdb : (dbUpdates m.reply (consumeLoop unmarshal before s).db update.ID update.Issue).2
      = some err) :
    (consumeLoop unmarshal (before ++ m :: after) s).trace
        = (consumeLoop unmarshal before s).trace
          ++ [Event.updates update.ID update.Issue,
              Event.log (LogMsg.updateFailed err),
              Event.nack m.msg.DeliveryTag false false]
          ++ (consumeLoop unmarshal after
                { db := (dbUpdates m.reply (consumeLoop unmarshal before s).db
                          update.ID update.Issue).1,
                  trace := [] }).trace
      ∧ (consumeLoop unmarshal (before ++ m :: after) s).db
        = (consumeLoop unmarshal after
                { db := (dbUpdates m.reply (consumeLoop unmarshal before s).db
                          update.ID update.Issue).1,
                  trace := [] }).db
      ∧ ackTags (consumeLoop unmarshal before s).trace
        = ackTags s.trace ++ before.map (fun d => d.msg.DeliveryTag)
      ∧ ackTags (consumeLoop unmarshal after
                { db := (dbUpdates m.reply (consumeLoop unmarshal before s).db
                          update.ID update.Issue).1,
                  trace := [] }).trace
        = after.map (fun d => d.msg.DeliveryTag)
      ∧ (∀ e ∈ [Event.updates update.ID update.Issue,
                Event.log (LogMsg.updateFailed err),
                Event.nack m.msg.DeliveryTag false false], e.isAck = false) := by
  have hm : handle unmarshal m (consumeLoop unmarshal before s)
      = { db := (dbUpdates m.reply (consumeLoop unmarshal before s).db update.ID update.Issue).1
          trace := (consumeLoop unmarshal before s).trace
            ++ [Event.updates update.ID update.Issue,
                Event.log (LogMsg.updateFailed err),
                Event.nack m.msg.DeliveryTag false false] } := by
    unfold handle
    rw [hdec]
    simp only
    cases hq : dbUpdates m.reply (consumeLoop unmarshal before s).db update.ID update.Issue with
    | mk table res =>
      rw [hq] at hdb
      simp only at hdb
      subst hdb
      rfl
  have hsplit := consumeLoop_split unmarshal before m after s
  rw [hm] at hsplit
  refine ⟨?_, ?_, ackTags_consumeLoop unmarshal before s, ?_, ?_⟩
  · rw [hsplit]
  · rw [hsplit]
  · rw [ackTags_consumeLoop]
    simp [ackTags]
  · intro e he
    simp at he
    rcases he with rfl | rfl | rfl <;> simp [Event.isAck]

/-- Witness for C2: the envelope of scenario A on a database that refuses the
statement. -/
theorem store_failure_is_rejected_witness :
    unmarshalAs envelopeA sampleDbDown.msg.Body = .ok (decodeEnvelope envelopeA)
      ∧ (dbUpdates sampleDbDown.reply [row5] 5 (decodeEnvelope envelopeA).Issue).2
          = some "connection refused"
      ∧ (consumeLoop (unmarshalAs envelopeA) ([] ++ sampleDbDown :: [])
          { db := [row5], trace := [] }).trace
          = [Event.updates 5 (decodeEnvelope envelopeA).Issue,
             Event.log (LogMsg.updateFailed "connection refused"),
             Event.nack 3 false false] :=
  ⟨rfl, rfl, (store_failure_is_rejected (unmarshalAs envelopeA) [] sampleDbDown []
    { db := [row5], trace := [] } (decodeEnvelope envelopeA) "connection refused" rfl rfl).1⟩

/-- C3: when the body of a delivered message decodes and the database call
returns no error, the run of the loop over the stream contains, for that
message, the database call, the success log line and `Ack(false)` on its tag
(followed by one log line if `Ack` itself failed), and no `Nack`.  Whenever the
database reports no error the call returns none, whether or not a row is
matched: if no row carries the envelope's top-level identifier, the call
returns no error and leaves the table as it is, and the message is acknowledged
with `Ack(false)` all the same.  This holds for the message at any position of
the stream. -/
theorem store_success_is_acknowledged (unmarshal : String → Except Err IssueUpdate)
    (before : List Inbound) (m : Inbound) (after : List Inbound) (s : State)
    (update : IssueUpdate)
    (hdec : unmarshal m.msg.Body = .ok update) :
    ((dbUpdates m.reply (consumeLoop unmarshal before s).db update.ID update.Issue).2 = none →
        (consumeLoop unmarshal (before ++ m :: after) s).trace
            = (consumeLoop unmarshal before s).trace
              ++ ([Event.updates update.ID update.Issue,
                   Event.log (LogMsg.updateDone update.ID),
                   Event.ack m.msg.DeliveryTag false] ++ ackFailureLog m.msg.ackErr)
              ++ (consumeLoop unmarshal after
                    { db := (dbUpdates m.reply (consumeLoop unmarshal before s).db
                              update.ID update.Issue).1,
                      trace := [] }).trace
          ∧ (consumeLoop unmarshal (before ++ m :: after) s).db
            = (consumeLoop unmarshal after
                    { db := (dbUpdates m.reply (consumeLoop unmarshal before s).db
                              update.ID update.Issue).1,
                      trace := [] }).db
          ∧ ackTags (consumeLoop unmarshal before s).trace
            = ackTags s.trace ++ before.map (fun d => d.msg.DeliveryTag)
          ∧ ackTags (consumeLoop unmarshal after
                    { db := (dbUpdates m.reply (consumeLoop unmarshal before s).db
                              update.ID update.Issue).1,
                      trace := [] }).trace
            = after.map (fun d => d.msg.DeliveryTag)
          ∧ (∀ e ∈ [Event.updates update.ID update.Issue,
                    Event.log (LogMsg.updateDone update.ID),
                    Event.ack m.msg.DeliveryTag false] ++ ackFailureLog m.msg.ackErr,
              e.isNack = false))
      ∧ (m.reply.dbErr = none →
          (∀ row ∈ (consumeLoop unmarshal before s).db, row.Id ≠ update.ID) →
        dbUpdates m.reply (consumeLoop unmarshal before s).db update.ID update.Issue
            = ((consumeLoop unmarshal before s).db, none)
          ∧ (consumeLoop unmarshal (before ++ m :: after) s).trace
            = (consumeLoop unmarshal before s).trace
              ++ ([Event.updates update.ID update.Issue,
                   Event.log (LogMsg.updateDone update.ID),
                   Event.ack m.msg.DeliveryTag false] ++ ackFailureLog m.msg.ackErr)
              ++ (consumeLoop unmarshal after
                    { db := (consumeLoop unmarshal before s).db, trace := [] }).trace
          ∧ (consumeLoop unmarshal (before ++ m :: after) s).db
            = (consumeLoop unmarshal after
                    { db := (consumeLoop unmarshal before s).db, trace := [] }).db) := by
  have hm : (dbUpdates m.reply (consumeLoop unmarshal before s).db update.ID update.Issue).2
        = none →
      handle unmarshal m (consumeLoop unmarshal before s)
        = { db := (dbUpdates m.reply (consumeLoop unmarshal before s).db
                    update.ID update.Issue).1
            trace := (consumeLoop unmarshal before s).trace
              ++ ([Event.updates update.ID update.Issue,
                   Event.log (LogMsg.updateDone update.ID),
                   Event.ack m.msg.DeliveryTag false] ++ ackFailureLog m.msg.ackErr) } := by
    intro hdb
    unfold handle
    rw [hdec]
    simp only
    cases hq : dbUpdates m.reply (consumeLoop unmarshal before s).db update.ID update.Issue with
    | mk table res =>
      rw [hq] at hdb
      simp only at hdb
      subst hdb
      simp only [ackFailureLog, List.append_assoc]
  have hsplit := consumeLoop_split unmarshal before m after s
  refine ⟨?_, ?_⟩
  · intro hdb
    rw [hm hdb] at hsplit
    refine ⟨?_, ?_, ackTags_consumeLoop unmarshal before s, ?_, ?_⟩
    · rw [hsplit]
    · rw [hsplit]
    · rw [ackTags_consumeLoop]
      simp [ackTags]
    · intro e he
      cases hack : m.msg.ackErr with
      | none =>
        rw [hack] at he
        simp [ackFailureLog] at he
        rcases he with rfl | rfl | rfl <;> simp [Event.isNack]
      | some x =>
        rw [hack] at he
        simp [ackFailureLog] at he
        rcases he with rfl | rfl | rfl | rfl <;> simp [Event.isNack]
  · intro hreply habs
    have hcall : dbUpdates m.reply (consumeLoop unmarshal before s).db update.ID update.Issue
        = ((consumeLoop unmarshal before s).db, none) := by
      simp only [dbUpdates, hreply]
      rw [map_update_absent _ _ _ habs]
    have hdb : (dbUpdates m.reply (consumeLoop unmarshal before s).db
        update.ID update.Issue).2 = none := by rw [hcall]
    rw [hm hdb, hcall] at hsplit
    refine ⟨hcall, ?_, ?_⟩
    · rw [hsplit]
    · rw [hsplit]

/-- Witness for C3, scenario C: envelope 999 against a table that holds
records 5 and 6 only. -/
theorem store_success_is_acknowledged_witness :
    unmarshalAs envelopeC sampleDelivery.msg.Body = .ok (decodeEnvelope envelopeC)
      ∧ sampleDelivery.reply.dbErr = none
      ∧ (∀ row ∈ [row5, row6], row.Id ≠ (decodeEnvelope envelopeC).ID)
      ∧ dbUpdates sampleDelivery.reply [row5, row6] 999 (decodeEnvelope envelopeC).Issue
          = ([row5, row6], none)
      ∧ (consumeLoop (unmarshalAs envelopeC) ([] ++ sampleDelivery :: [])
          { db := [row5, row6], trace := [] }).trace
          = [Event.updates 999 (decodeEnvelope envelopeC).Issue,
             Event.log (LogMsg.updateDone 999),
             Event.ack 2 false]
      ∧ (consumeLoop (unmarshalAs envelopeC) ([] ++ sampleDelivery :: [])
          { db := [row5, row6], trace := [] }).db = [row5, row6] :=
  have habs : ∀ row ∈ [row5, row6], row.Id ≠ (decodeEnvelope envelopeC).ID := by
    intro row hrow
    simp at hrow
    rcases hrow with rfl | rfl <;> decide
  have h := (store_success_is_acknowledged (unmarshalAs envelopeC) [] sampleDelivery []
    { db := [row5, row6], trace := [] } (decodeEnvelope envelopeC) rfl).2 rfl habs
  ⟨rfl, rfl, habs, h.1, h.2.1, h.2.2⟩

/-- C4: over any finite stream, whatever the decoder, the database and the
acknowledger answer, the acknowledgment calls (`Ack` or `Nack`) of the loop are
one per delivered message, in delivery order: each message contributes exactly
one such call, carrying its own tag, and the tags of the acknowledgment calls of
the whole run are the tags of the deliveries in the order of arrival. -/
theorem one_acknowledgment_per_delivery (unmarshal : String → Except Err IssueUpdate)
    (msgs : List Inbound) (db : List Issue) :
    ackTags (consumeLoop unmarshal msgs { db := db, trace := [] }).trace
        = msgs.map (fun m => m.msg.DeliveryTag)
      ∧ (∀ (m : Inbound) (table : List Issue),
          ackTags (handleCalls unmarshal m table) = [m.msg.DeliveryTag]) := by
  refine ⟨?_, ?_⟩
  · rw [ackTags_consumeLoop]
    simp [ackTags]
  · intro m table
    exact ackTags_handleCalls unmarshal m table

/-- C5, as the code behaves: when `m.ch.Close()` fails, `Close` returns that
error at once and `m.conn.Close()` is not called, whatever it would answer. -/
theorem close_skips_connection_on_channel_error (err : Err) (connCloseErr : Option Err) :
    Close (some err) connCloseErr = ([Event.chClose], some err)
      ∧ Event.connClose ∉ (Close (some err) connCloseErr).1 := by
  simp [Close]

/-- C6: the database call made for a decoded envelope selects rows by the
envelope's top-level `ID` alone.  A row whose identifier differs from the
top-level `ID` is the same after the message as before, whatever the nested
identifier is, and the table keeps its length. -/
theorem update_is_keyed_on_top_level_id (unmarshal : String → Except Err IssueUpdate)
    (m : Inbound) (s : State) (update : IssueUpdate) (i : Nat) (row : Issue)
    (hdec : unmarshal m.msg.Body = .ok update)
    (hrow : s.db[i]? = some row)
    (hkey : row.Id ≠ update.ID) :
    (handle unmarshal m s).db[i]? = some row
      ∧ (handle unmarshal m s).db.length = s.db.length := by
  rw [handle_db_ok unmarshal m s update hdec]
  unfold dbUpdates
  cases m.reply.dbErr with
  | some e => exact ⟨hrow, rfl⟩
  | none => simp [List.getElem?_map, hrow, hkey]

/-- Witness for C6: top-level id 6 with nested id 5 against records 5 and 6;
record 5 is not touched. -/
theorem update_is_keyed_on_top_level_id_witness :
    unmarshalAs envelopeMixed sampleDelivery.msg.Body = .ok (decodeEnvelope envelopeMixed)
      ∧ (decodeEnvelope envelopeMixed).Issue.Id = 5
      ∧ row5.Id ≠ (decodeEnvelope envelopeMixed).ID
      ∧ (handle (unmarshalAs envelopeMixed) sampleDelivery
          { db := [row5, row6], trace := [] }).db[0]? = some row5 :=
  ⟨rfl, rfl, by decide,
    (update_is_keyed_on_top_level_id (unmarshalAs envelopeMixed) sampleDelivery
      { db := [row5, row6], trace := [] } (decodeEnvelope envelopeMixed) 0 row5 rfl rfl
      (by decide)).1⟩

/-- C7, as stated, fails on the code.  An envelope for record 5 whose status
is present and empty leaves the status "open" in place, and an envelope that
carries `updated_at` 7 leaves record 5 with the database time 9. -/
theorem zero_valued_field_is_not_applied :
    (decodeEnvelope envelopeEmptyStatus).ID = row5.Id
      ∧ (envelopeEmptyStatus.issue.bind (fun j => j.status)) = some ""
      ∧ (handle (unmarshalAs envelopeEmptyStatus) sampleDelivery
          { db := [row5], trace := [] }).db.map (fun row => row.Status) = ["open"]
      ∧ (decodeEnvelope envelopeStamped).ID = row5.Id
      ∧ (envelopeStamped.issue.bind (fun j => j.updated_at)) = some 7
      ∧ (handle (unmarshalAs envelopeStamped) sampleDelivery
          { db := [row5], trace := [] }).db.map (fun row => row.UpdatedAt) = [9] := by
  refine ⟨rfl, rfl, ?_, rfl, rfl, ?_⟩ <;> decide

/-- C7, amended: when the top-level identifier names a row of the table and
the database reports no error, every field of the nested record other than
`updated_at` that is present with a non-zero value (a non-empty string, a
non-zero integer, a non-zero timestamp) is applied, so the matched row holds the
envelope's value for it afterwards.  A field whose decoded value is the zero
value keeps the row's previous value, and `updated_at` receives the database
layer's current time. -/
theorem present_nonzero_fields_are_applied (unmarshal : String → Except Err IssueUpdate)
    (m : Inbound) (s : State) (e : EnvelopeJson) (j : IssueJson) (i : Nat) (row : Issue)
    (hdec : unmarshal m.msg.Body = .ok (decodeEnvelope e))
    (hissue : e.issue = some j)
    (hdb : m.reply.dbErr = none)
    (hrow : s.db[i]? = some row)
    (hid : row.Id = (decodeEnvelope e).ID) :
    ∃ updated, (handle unmarshal m s).db[i]? = some updated
      ∧ (∀ v, j.id = some v → v ≠ 0 → updated.Id = v)
      ∧ (∀ v, j.Summary = some v → v ≠ "" → updated.Summary = v)
      ∧ (∀ v, j.status = some v → v ≠ "" → updated.Status = v)
      ∧ (∀ v, j.di = some v → v ≠ 0 → updated.Di = v)
      ∧ (∀ v, j.created_at = some v → v ≠ 0 → updated.CreatedAt = v)
      ∧ ((decodeIssue j).Id = 0 → updated.Id = row.Id)
      ∧ ((decodeIssue j).Summary = "" → updated.Summary = row.Summary)
      ∧ ((decodeIssue j).Status = "" → updated.Status = row.Status)
      ∧ ((decodeIssue j).Di = 0 → updated.Di = row.Di)
      ∧ ((decodeIssue j).CreatedAt = 0 → updated.CreatedAt = row.CreatedAt)
      ∧ updated.UpdatedAt = m.reply.now := by
  have hvals : (decodeEnvelope e).Issue = decodeIssue j := by
    simp [decodeEnvelope, hissue]
  refine ⟨setColumns m.reply.now (decodeIssue j) row, ?_, ?_⟩
  · rw [handle_db_ok unmarshal m s (decodeEnvelope e) hdec]
    simp [dbUpdates, hdb, List.getElem?_map, hrow, hid, hvals]
  · refine ⟨?_, ?_, ?_, ?_, ?_, ?_, ?_, ?_, ?_, ?_, rfl⟩
    · intro v hv hne
      simp [setColumns, decodeIssue, hv, hne]
    · intro v hv hne
      simp [setColumns, decodeIssue, hv, hne]
    · intro v hv hne
      simp [setColumns, decodeIssue, hv, hne]
    · intro v hv hne
      simp [setColumns, decodeIssue, hv, hne]
    · intro v hv hne
      simp [setColumns, decodeIssue, hv, hne]
    · intro hz
      simp [setColumns, hz]
    · intro hz
      simp [setColumns, hz]
    · intro hz
      simp [setColumns, hz]
    · intro hz
      simp [setColumns, hz]
    · intro hz
      simp [setColumns, hz]

/-- Witness for C7 amended, scenario A: status "closed" for record 5, whose
status was "open". -/
theorem present_nonzero_fields_are_applied_witness :
    unmarshalAs envelopeA sampleDelivery.msg.Body = .ok (decodeEnvelope envelopeA)
      ∧ row5.Id = (decodeEnvelope envelopeA).ID
      ∧ row5.Status = "open"
      ∧ ∃ updated, (handle (unmarshalAs envelopeA) sampleDelivery
            { db := [row5], trace := [] }).db[0]? = some updated
          ∧ updated.Status = "closed" :=
  ⟨rfl, rfl, rfl,
    match present_nonzero_fields_are_applied (unmarshalAs envelopeA) sampleDelivery
      { db := [row5], trace := [] } envelopeA { noFields with status := some "closed" } 0 row5
      rfl rfl rfl rfl rfl with
    | ⟨updated, hat, _, _, hstatus, _⟩ => ⟨updated, hat, hstatus "closed" rfl (by decide)⟩⟩

/-- C8, as stated, fails on the code.  An envelope with top-level id 5 and
nested id 7, processed against a table that holds record 5 only, leaves a table
that holds record 7 only. -/
theorem nested_id_rewrites_identifier :
    (decodeEnvelope envelopeRenumber).ID = 5
      ∧ (decodeEnvelope envelopeRenumber).Issue.Id = 7
      ∧ ([row5].map (fun row => row.Id)) = [5]
      ∧ (handle (unmarshalAs envelopeRenumber) sampleDelivery
          { db := [row5], trace := [] }).db.map (fun row => row.Id) = [7] := by
  refine ⟨rfl, rfl, rfl, ?_⟩
  decide

/-- C8, amended: processing a message never adds or removes a row, whatever
the envelope.  The identifiers of the rows after the message are those before
it, row by row, in every case but one: the body decodes, the database reports
no error, the top-level identifier names a row of the table, and the nested
record carries a non-zero identifier different from the top-level one.  In that
one case the top-level identifier, present before, is absent afterwards. -/
theorem identifiers_kept_unless_nested_id_rewrites
    (unmarshal : String → Except Err IssueUpdate) (m : Inbound) (s : State) :
    (handle unmarshal m s).db.length = s.db.length
      ∧ ((∀ update, unmarshal m.msg.Body = .ok update → m.reply.dbErr = none →
            (∃ row ∈ s.db, row.Id = update.ID) →
            update.Issue.Id = 0 ∨ update.Issue.Id = update.ID) →
          (handle unmarshal m s).db.map (fun row => row.Id) = s.db.map (fun row => row.Id))
      ∧ (∀ update, unmarshal m.msg.Body = .ok update → m.reply.dbErr = none →
            (∃ row ∈ s.db, row.Id = update.ID) →
            update.Issue.Id ≠ 0 → update.Issue.Id ≠ update.ID →
          update.ID ∈ s.db.map (fun row => row.Id)
            ∧ update.ID ∉ (handle unmarshal m s).db.map (fun row => row.Id)) := by
  refine ⟨?_, ?_, ?_⟩
  · cases hdec : unmarshal m.msg.Body with
    | error err => rw [handle_db_error unmarshal m s err hdec]
    | ok update =>
      rw [handle_db_ok unmarshal m s update hdec]
      unfold dbUpdates
      cases m.reply.dbErr with
      | some e => rfl
      | none => simp
  · intro hnested
    cases hdec : unmarshal m.msg.Body with
    | error err => rw [handle_db_error unmarshal m s err hdec]
    | ok update =>
      rw [handle_db_ok unmarshal m s update hdec]
      unfold dbUpdates
      cases hreply : m.reply.dbErr with
      | some e => rfl
      | none =>
        simp only
        rw [ids_after_update]
        apply List.map_congr_left
        intro row hmem
        by_cases hrow : row.Id = update.ID
        · rcases hnested update hdec hreply ⟨row, hmem, hrow⟩ with h0 | hsame
          · simp [h0]
          · simp [hrow, hsame]
        · simp [hrow]
  · intro update hdec hreply hex hne0 hneq
    refine ⟨?_, ?_⟩
    · rcases hex with ⟨row, hmem, hrow⟩
      exact List.mem_map.mpr ⟨row, hmem, hrow⟩
    · rw [handle_db_ok unmarshal m s update hdec]
      simp only [dbUpdates, hreply]
      rw [ids_after_update]
      intro hin
      rcases List.mem_map.mp hin with ⟨row, _, hrow⟩
      by_cases hkey : row.Id = update.ID
      · simp [hkey, hne0] at hrow
        exact hneq hrow
      · simp [hkey] at hrow

/-- Witness for C8 amended: scenario A, whose nested record has no `id`, keeps
the identifiers 5 and 6; the envelope with top-level id 5 and nested id 7 keeps
the number of rows and removes the identifier 5. -/
theorem identifiers_kept_unless_nested_id_rewrites_witness :
    (decodeEnvelope envelopeA).Issue.Id = 0
      ∧ (handle (unmarshalAs envelopeA) sampleDelivery
          { db := [row5, row6], trace := [] }).db.map (fun row => row.Id) = [5, 6]
      ∧ (handle (unmarshalAs envelopeRenumber) sampleDelivery
          { db := [row5, row6], trace := [] }).db.length = 2
      ∧ (5 : Int) ∉ (handle (unmarshalAs envelopeRenumber) sampleDelivery
          { db := [row5, row6], trace := [] }).db.map (fun row => row.Id) :=
  ⟨rfl,
    (identifiers_kept_unless_nested_id_rewrites (unmarshalAs envelopeA) sampleDelivery
      { db := [row5, row6], trace := [] }).2.1
      (fun update h _ _ => by
        have hu : update = decodeEnvelope envelopeA := by
          simp only [unmarshalAs, Except.ok.injEq] at h
          exact h.symm
        left
        rw [hu]
        rfl),
    (identifiers_kept_unless_nested_id_rewrites (unmarshalAs envelopeRenumber) sampleDelivery
      { db := [row5, row6], trace := [] }).1,
    ((identifiers_kept_unless_nested_id_rewrites (unmarshalAs envelopeRenumber) sampleDelivery
      { db := [row5, row6], trace := [] }).2.2 (decodeEnvelope envelopeRenumber) rfl rfl
      ⟨row5, by simp, rfl⟩ (by decide) (by decide)).2⟩

/-- C9: `Start` calls `Qos(PrefetchCount, 0, false)` first.  If that call fails,
`Start` returns its error and `Consume` is not called.  Otherwise `Start` calls
`Consume` on `QueueName` with an empty consumer name and with auto-ack,
exclusive, no-local and no-wait all false; if that call fails, `Start` returns
its error and no message is processed; if it succeeds, the worker runs the
loop on the stream from an empty trace. -/
theorem start_sets_prefetch_then_subscribes (config : Config)
    (unmarshal : String → Except Err IssueUpdate) (db : List Issue) :
    (∀ (err : Err) (res : Except Err (List Inbound)),
        Start config unmarshal { qosErr := some err, consumeRes := res } db
          = StartOutcome.returned err [Event.qos config.PrefetchCount 0 false])
      ∧ (∀ err : Err,
        Start config unmarshal { qosErr := none, consumeRes := .error err } db
          = StartOutcome.returned err
              [Event.qos config.PrefetchCount 0 false,
               Event.consume config.QueueName "" false false false false])
      ∧ (∀ msgs : List Inbound,
        Start config unmarshal { qosErr := none, consumeRes := .ok msgs } db
          = StartOutcome.blocked
              [Event.qos config.PrefetchCount 0 false,
               Event.consume config.QueueName "" false false false false,
               Event.log LogMsg.waiting]
              (consumeLoop unmarshal msgs { db := db, trace := [] })) :=
  ⟨fun _ _ => rfl, fun _ => rfl, fun _ => rfl⟩

/-- C10, as the code behaves: for a message whose body fails to decode and
whose `Nack` call fails, the loop logs the decode error only; the failure of
`Nack` leaves no log line, and the calls are those of a run in which `Nack`
succeeds.  On the `Ack` path the failure is logged. -/
theorem nack_failure_is_not_logged :
    sampleNackBroken.msg.ackErr = some "channel closed"
      ∧ handleCalls unmarshalNothing sampleNackBroken [row5]
          = [Event.log (LogMsg.jsonFailed "unexpected end of JSON input"),
             Event.nack 5 false false]
      ∧ (∀ e ∈ handleCalls unmarshalNothing sampleNackBroken [row5], e.isAckFailedLog = false)
      ∧ handleCalls unmarshalNothing sampleNackBroken [row5]
          = handleCalls unmarshalNothing
              { sampleNackBroken with msg := { sampleNackBroken.msg with ackErr := none } } [row5]
      ∧ handleCalls (unmarshalAs envelopeA) sampleAckBroken [row5]
          = [Event.updates 5 (decodeEnvelope envelopeA).Issue,
             Event.log (LogMsg.updateDone 5),
             Event.ack 4 false,
             Event.log (LogMsg.ackFailed "channel closed")] :=
  ⟨rfl, rfl, by decide, rfl, rfl⟩

end Middleware
